import Mathlib

/-!
Verification of the client-side session and navigation state manager of the
chatbot system interface repository.

The definitions below are a shallow embedding of the TypeScript source:

* `Document`, `Chatbot`, `Message`, `RelatedDocument`, `Screen` and `AppState`
  mirror the interfaces and `useState` cells of `AppContent` (App component).
* `addDocument`, `deleteDocument`, `createChatbot`, `addMessageToChatbot`
  mirror the handlers declared inside `AppContent`.
* `render` mirrors the JSX screen dispatch at the bottom of `AppContent`.
* `ChatView` and its handlers mirror the pagination/zoom `useState` cells and
  handlers of `ChatbotInterface` / `DocumentViewer`.
* `scanParts` mirrors the `content.split(/(\[page \d+\])/gi)` citation
  renderer of `ChatbotInterface`.
* `loadJsonList`, `loadScreen`, `loadSelectedId` mirror the `localStorage`
  `useState` initializers of `AppContent`; `jsonParse` models `JSON.parse`.

Machine integers do not occur: all counters are small naturals.
-/

namespace ChatbotSystem

/-- Mirrors `interface Document` in the App module: `id`, `name`,
`uploadDate`, `size`, `content`, all strings. -/
structure Document where
  id : String
  name : String
  uploadDate : String
  size : String
  content : String
deriving Repr, DecidableEq

/-- Mirrors `interface RelatedDocument`: `documentId`, `documentName`,
`page`. -/
structure RelatedDocument where
  documentId : String
  documentName : String
  page : Nat
deriving Repr, DecidableEq

/-- Mirrors the `role: 'user' | 'assistant'` union of `interface Message`. -/
inductive Role where
  | user
  | assistant
deriving Repr, DecidableEq

/-- Mirrors `interface Message`: `id`, `role`, `content`, optional
`relatedDocuments`. -/
structure Message where
  id : String
  role : Role
  content : String
  relatedDocuments : Option (List RelatedDocument) := none
deriving Repr, DecidableEq

/-- Mirrors `interface Chatbot`: `id`, `documentId`, `documentName`,
`messages`. -/
structure Chatbot where
  id : String
  documentId : String
  documentName : String
  messages : List Message
deriving Repr, DecidableEq

/-- Mirrors `type Screen = 'home' | 'library' | 'viewer' | 'chatbot'`. -/
inductive Screen where
  | home
  | library
  | viewer
  | chatbot
deriving Repr, DecidableEq

/-- The state cells of `AppContent`: `currentScreen`, `documents`,
`chatbots`, `selectedDocumentId`, `selectedChatbotId`. -/
structure AppState where
  currentScreen : Screen
  documents : List Document
  chatbots : List Chatbot
  selectedDocumentId : Option String
  selectedChatbotId : Option String
deriving Repr, DecidableEq

/-- Mirrors `addDocument`: `setDocuments(prev => [...prev, doc])`.
No duplicate-id check is performed by the source. -/
def addDocument (doc : Document) (s : AppState) : AppState :=
  { s with documents := s.documents ++ [doc] }

/-- Mirrors `deleteDocument`:
`setDocuments(prev => prev.filter(doc => doc.id !== id))` and
`setChatbots(prev => prev.filter(bot => bot.documentId !== id))`. -/
def deleteDocument (id : String) (s : AppState) : AppState :=
  { s with
    documents := s.documents.filter (fun doc => doc.id != id),
    chatbots := s.chatbots.filter (fun bot => bot.documentId != id) }

/-- Errors named by the specification's error taxonomy.  The App module
itself declares no such type; this enumeration exists so that the spec's
sentences about returned errors can be stated against the code. -/
inductive StoreError where
  | notFound
  | duplicateId
deriving Repr, DecidableEq

/-- Mirrors the template literal `` `chatbot-${Date.now()}` ``; the
`Date.now()` reading is passed in as `now`. -/
def chatbotIdFor (now : Nat) : String :=
  "chatbot-" ++ toString now

/-- Mirrors `createChatbot`.  The source reads
`const document = documents.find(doc => doc.id === documentId)`, returns
`undefined` when absent (`if (!document) return;`), and otherwise appends a
new chatbot, selects it and switches the screen to `'chatbot'`.  Both
branches of the TypeScript function return `undefined`, so the second
component (the returned error value) is `none` on both paths. -/
def createChatbot (documentId : String) (now : Nat) (s : AppState) :
    AppState × Option StoreError :=
  match s.documents.find? (fun doc => doc.id == documentId) with
  | none => (s, none)
  | some document =>
      let newChatbot : Chatbot :=
        { id := chatbotIdFor now
          documentId := documentId
          documentName := document.name
          messages := [] }
      ({ s with
          chatbots := s.chatbots ++ [newChatbot]
          selectedChatbotId := some newChatbot.id
          currentScreen := Screen.chatbot }, none)

/-- Mirrors `addMessageToChatbot`:
`setChatbots(prev => prev.map(bot => bot.id === chatbotId ? {...bot,
messages: [...bot.messages, message]} : bot))`. -/
def addMessageToChatbot (chatbotId : String) (message : Message)
    (s : AppState) : AppState :=
  { s with
    chatbots := s.chatbots.map (fun bot =>
      if bot.id == chatbotId then
        { bot with messages := bot.messages ++ [message] }
      else bot) }

/-- Mirrors `const selectedDocument = documents.find(doc => doc.id ===
selectedDocumentId)`; a `null` selection matches nothing. -/
def selectedDocument (s : AppState) : Option Document :=
  s.documents.find? (fun doc => some doc.id == s.selectedDocumentId)

/-- Mirrors `const selectedChatbot = chatbots.find(bot => bot.id ===
selectedChatbotId)`. -/
def selectedChatbot (s : AppState) : Option Chatbot :=
  s.chatbots.find? (fun bot => some bot.id == s.selectedChatbotId)

/-- What the screen dispatch of `AppContent` puts on screen.  `blank` is the
case where the guard `selectedDocument &&` (resp. `selectedChatbot &&`)
fails and no screen component is rendered at all. -/
inductive Rendered where
  | home
  | library
  | viewer (d : Document)
  | chatbot (c : Chatbot)
  | blank
deriving Repr, DecidableEq

/-- Mirrors the JSX dispatch of `AppContent`:
`currentScreen === 'viewer' && selectedDocument && <DocumentViewer .../>`
renders the viewer only when the selected document resolves, and renders
nothing (`blank`) otherwise; similarly for the chatbot screen. -/
def render (s : AppState) : Rendered :=
  match s.currentScreen with
  | Screen.home => Rendered.home
  | Screen.library => Rendered.library
  | Screen.viewer =>
      match selectedDocument s with
      | some d => Rendered.viewer d
      | none => Rendered.blank
  | Screen.chatbot =>
      match selectedChatbot s with
      | some c => Rendered.chatbot c
      | none => Rendered.blank

/-- Document-store operations quantified over by the spec's sequence
properties: the `addDocument` and `deleteDocument` handlers. -/
inductive DocOp where
  | add (doc : Document)
  | del (id : String)
deriving Repr

/-- Applies one `DocOp` to the App state. -/
def applyDocOp (s : AppState) : DocOp → AppState
  | DocOp.add doc => addDocument doc s
  | DocOp.del id => deleteDocument id s

/-- Applies a sequence of `addDocument`/`deleteDocument` operations in
order. -/
def applyDocOps (ops : List DocOp) (s : AppState) : AppState :=
  ops.foldl applyDocOp s

/-- Referential integrity: every chatbot's `documentId` resolves to a live
document. -/
def NoDangling (s : AppState) : Prop :=
  ∀ bot ∈ s.chatbots, ∃ doc ∈ s.documents, doc.id = bot.documentId

instance : DecidablePred NoDangling := fun s =>
  inferInstanceAs (Decidable (∀ bot ∈ s.chatbots, ∃ doc ∈ s.documents, doc.id = bot.documentId))

/-- After `deleteDocument id`, no surviving chatbot references `id`. -/
theorem deleteDocument_no_reference (s : AppState) (id : String) :
    ∀ bot ∈ (deleteDocument id s).chatbots, bot.documentId ≠ id := by
  intro bot hbot
  simp only [deleteDocument, List.mem_filter, bne_iff_ne, ne_eq] at hbot
  exact hbot.2

/-- After `deleteDocument id`, no surviving document carries `id`. -/
theorem deleteDocument_no_document (s : AppState) (id : String) :
    ∀ doc ∈ (deleteDocument id s).documents, doc.id ≠ id := by
  intro doc hdoc
  simp only [deleteDocument, List.mem_filter, bne_iff_ne, ne_eq] at hdoc
  exact hdoc.2

/-- Neither `addDocument` nor `deleteDocument` introduces a chatbot
referencing `id` if none does. -/
theorem noRef_applyDocOp (s : AppState) (id : String) (op : DocOp)
    (h : ∀ bot ∈ s.chatbots, bot.documentId ≠ id) :
    ∀ bot ∈ (applyDocOp s op).chatbots, bot.documentId ≠ id := by
  cases op with
  | add doc => simpa [applyDocOp, addDocument] using h
  | del j =>
      intro bot hbot
      simp only [applyDocOp, deleteDocument, List.mem_filter, bne_iff_ne, ne_eq] at hbot
      exact h bot hbot.1

/-- A chatbot-reference-freeness property survives any sequence of
document operations. -/
theorem noRef_applyDocOps (ops : List DocOp) (s : AppState) (id : String)
    (h : ∀ bot ∈ s.chatbots, bot.documentId ≠ id) :
    ∀ bot ∈ (applyDocOps ops s).chatbots, bot.documentId ≠ id := by
  induction ops generalizing s with
  | nil => simpa [applyDocOps] using h
  | cons op rest ih =>
      simpa [applyDocOps, List.foldl_cons] using
        ih (applyDocOp s op) (noRef_applyDocOp s id op h)

/-- One document operation preserves referential integrity. -/
theorem noDangling_applyDocOp (s : AppState) (op : DocOp) (h : NoDangling s) :
    NoDangling (applyDocOp s op) := by
  cases op with
  | add doc =>
      intro bot hbot
      simp only [applyDocOp, addDocument] at hbot ⊢
      obtain ⟨d, hd, hdid⟩ := h bot hbot
      exact ⟨d, List.mem_append_left _ hd, hdid⟩
  | del j =>
      intro bot hbot
      simp only [applyDocOp, deleteDocument, List.mem_filter, bne_iff_ne, ne_eq] at hbot ⊢
      obtain ⟨hmem, hne⟩ := hbot
      obtain ⟨d, hd, hdid⟩ := h bot hmem
      refine ⟨d, ⟨hd, ?_⟩, hdid⟩
      rw [hdid]
      exact hne

/-- Any sequence of document operations preserves referential integrity. -/
theorem noDangling_applyDocOps (ops : List DocOp) (s : AppState)
    (h : NoDangling s) : NoDangling (applyDocOps ops s) := by
  induction ops generalizing s with
  | nil => simpa [applyDocOps] using h
  | cons op rest ih =>
      simpa [applyDocOps, List.foldl_cons] using
        ih (applyDocOp s op) (noDangling_applyDocOp s op h)

/-- Deleting an absent document id changes nothing, given referential
integrity. -/
theorem deleteDocument_noop (s : AppState) (id : String)
    (hinv : NoDangling s) (habs : ∀ doc ∈ s.documents, doc.id ≠ id) :
    deleteDocument id s = s := by
  have hdocs : s.documents.filter (fun doc => doc.id != id) = s.documents := by
    rw [List.filter_eq_self]
    intro d hd
    simpa using habs d hd
  have hbots : s.chatbots.filter (fun bot => bot.documentId != id) = s.chatbots := by
    rw [List.filter_eq_self]
    intro b hb
    obtain ⟨d, hd, hdid⟩ := hinv b hb
    simp only [bne_iff_ne, ne_eq]
    rw [← hdid]
    exact habs d hd
  simp [deleteDocument, hdocs, hbots]

/-- C1: referential integrity.  (1) `NoDangling` is preserved by every
sequence of `addDocument`/`deleteDocument`; (2) `deleteDocument id` removes
the document and cascades to every chatbot whose `documentId` equals `id`;
(3) from any state, once `id` has been deleted, no chatbot ever references
`id` again under further document operations; (4) deleting an absent id is
a no-op, not an error. -/
theorem C1_referential_integrity :
    (∀ (s : AppState) (ops : List DocOp),
        NoDangling s → NoDangling (applyDocOps ops s)) ∧
    (∀ (s : AppState) (id : String),
        (∀ doc ∈ (deleteDocument id s).documents, doc.id ≠ id) ∧
        (∀ bot ∈ (deleteDocument id s).chatbots, bot.documentId ≠ id)) ∧
    (∀ (s : AppState) (id : String) (ops : List DocOp),
        ∀ bot ∈ (applyDocOps ops (deleteDocument id s)).chatbots,
          bot.documentId ≠ id) ∧
    (∀ (s : AppState) (id : String), NoDangling s →
        (∀ doc ∈ s.documents, doc.id ≠ id) → deleteDocument id s = s) :=
  ⟨fun s ops h => noDangling_applyDocOps ops s h,
   fun s id => ⟨deleteDocument_no_document s id, deleteDocument_no_reference s id⟩,
   fun s id ops =>
     noRef_applyDocOps ops (deleteDocument id s) id (deleteDocument_no_reference s id),
   fun s id hinv habs => deleteDocument_noop s id hinv habs⟩

/-- A concrete document used by the witness states. -/
def demoDocA : Document :=
  { id := "a", name := "Alpha.pdf", uploadDate := "2024-01-01", size := "1 KB",
    content := "alpha" }

/-- A concrete chatbot bound to `demoDocA`, used by the witness states. -/
def demoBotA : Chatbot :=
  { id := "chatbot-1", documentId := "a", documentName := "Alpha.pdf",
    messages := [] }

/-- A concrete App state with one document and one chatbot referencing it. -/
def demoState : AppState :=
  { currentScreen := Screen.home, documents := [demoDocA],
    chatbots := [demoBotA], selectedDocumentId := none,
    selectedChatbotId := none }

/-- Witness for C1: instantiates the invariant preservation at a concrete
state and operation sequence, and the no-op clause at an absent id. -/
theorem C1_witness :
    NoDangling (applyDocOps [DocOp.del "a", DocOp.add demoDocA] demoState) ∧
    deleteDocument "zzz" demoState = demoState :=
  ⟨C1_referential_integrity.1 demoState [DocOp.del "a", DocOp.add demoDocA]
      (by decide),
   C1_referential_integrity.2.2.2 demoState "zzz" (by decide) (by decide)⟩

/-- C9 counterexample: `addDocument` performs no duplicate-id check.  Adding
`demoDocA` to a state that already holds a document with id `"a"` changes
the document list (it grows to two entries, both with id `"a"`) and signals
no `DuplicateIdError`, contradicting the claim that the list is left
unchanged on an id collision. -/
theorem C9_counterexample :
    (addDocument demoDocA demoState).documents ≠ demoState.documents ∧
    (addDocument demoDocA demoState).documents.length = 2 ∧
    (addDocument demoDocA demoState).documents.countP
      (fun doc => doc.id == "a") = 2 := by
  decide

/-- C9 amended: `addDocument doc` unconditionally appends `doc` to the
document list, leaving every other state cell unchanged; when a document
with the same id already exists, the store afterwards holds at least two
documents with that id (no `DuplicateIdError` is raised and no check is
performed). -/
theorem C9_addDocument_always_appends :
    (∀ (doc : Document) (s : AppState),
        (addDocument doc s).documents = s.documents ++ [doc] ∧
        (addDocument doc s).chatbots = s.chatbots ∧
        (addDocument doc s).currentScreen = s.currentScreen ∧
        (addDocument doc s).selectedDocumentId = s.selectedDocumentId ∧
        (addDocument doc s).selectedChatbotId = s.selectedChatbotId) ∧
    (∀ (doc : Document) (s : AppState),
        (∃ d ∈ s.documents, d.id = doc.id) →
        2 ≤ (addDocument doc s).documents.countP
              (fun d => d.id == doc.id)) := by
  constructor
  · intro doc s
    exact ⟨rfl, rfl, rfl, rfl, rfl⟩
  · intro doc s hdup
    have hpos : 0 < s.documents.countP (fun d => d.id == doc.id) := by
      rw [List.countP_pos_iff]
      obtain ⟨d, hd, hid⟩ := hdup
      exact ⟨d, hd, by simpa using hid⟩
    have happ : (addDocument doc s).documents.countP (fun d => d.id == doc.id)
        = s.documents.countP (fun d => d.id == doc.id) + 1 := by
      simp [addDocument, List.countP_append]
    omega

/-- Witness for C9's amended theorem: a duplicate insertion at a concrete
state yields a count of at least two. -/
theorem C9_witness :
    2 ≤ (addDocument demoDocA demoState).documents.countP
          (fun d => d.id == demoDocA.id) :=
  C9_addDocument_always_appends.2 demoDocA demoState
    ⟨demoDocA, by decide, rfl⟩

/-- C2 counterexample: `createChatbot` with an unknown document id leaves
the state unchanged but returns no error value at all (both TypeScript
branches return `undefined`), contradicting the claim that it returns
`NotFoundError`. -/
theorem C2_counterexample :
    (createChatbot "missing" 42 demoState).2 ≠ some StoreError.notFound ∧
    (createChatbot "missing" 42 demoState).2 = none ∧
    (createChatbot "missing" 42 demoState).1 = demoState := by
  decide

/-- C2 amended: `createChatbot(documentId)` with an id for which no
document exists is a silent no-op (all state unchanged, no chatbot
created, navigation unchanged) that returns no error value rather than a
`NotFoundError`; when the document exists it appends a chatbot with the
timestamp-derived id, the document's current name snapshotted and an empty
message list, selects the new id, and switches the screen to `chatbot`. -/
theorem C2_createChatbot_behavior :
    ∀ (s : AppState) (documentId : String) (now : Nat),
      (s.documents.find? (fun doc => doc.id == documentId) = none →
        createChatbot documentId now s = (s, none)) ∧
      (∀ document,
        s.documents.find? (fun doc => doc.id == documentId) = some document →
        createChatbot documentId now s =
          ({ s with
              chatbots := s.chatbots ++
                [{ id := chatbotIdFor now, documentId := documentId,
                   documentName := document.name, messages := [] }],
              selectedChatbotId := some (chatbotIdFor now),
              currentScreen := Screen.chatbot }, none)) := by
  intro s documentId now
  constructor
  · intro h
    simp [createChatbot, h]
  · intro document h
    simp [createChatbot, h]

/-- Witness for C2's amended theorem: both branches instantiated at
concrete states. -/
theorem C2_witness :
    createChatbot "missing" 42 demoState = (demoState, none) ∧
    createChatbot "a" 7 demoState =
      ({ demoState with
          chatbots := demoState.chatbots ++
            [{ id := chatbotIdFor 7, documentId := "a",
               documentName := "Alpha.pdf", messages := [] }],
          selectedChatbotId := some (chatbotIdFor 7),
          currentScreen := Screen.chatbot }, none) :=
  ⟨(C2_createChatbot_behavior demoState "missing" 42).1 (by decide),
   (C2_createChatbot_behavior demoState "a" 7).2 demoDocA (by decide)⟩

/-- A concrete App state sitting on the viewer screen with document `"a"`
selected, used by the C6 counterexample. -/
def viewerState : AppState :=
  { currentScreen := Screen.viewer, documents := [demoDocA], chatbots := [],
    selectedDocumentId := some "a", selectedChatbotId := none }

/-- C6 counterexample: deleting the document selected by the open viewer
leaves the screen at `viewer` with the dangling selection still recorded;
the dispatch then renders nothing (`blank`) — it does not force a
transition to `Home`. -/
theorem C6_counterexample :
    (deleteDocument "a" viewerState).currentScreen = Screen.viewer ∧
    (deleteDocument "a" viewerState).selectedDocumentId = some "a" ∧
    selectedDocument (deleteDocument "a" viewerState) = none ∧
    render (deleteDocument "a" viewerState) = Rendered.blank ∧
    render (deleteDocument "a" viewerState) ≠ Rendered.home := by
  decide

/-- C6 amended: deleting an entity out-of-band never changes the
navigation cells (`currentScreen` and both selections survive
`deleteDocument` unchanged), and on the next read the render dispatch
detects the dangling reference and renders no screen content (`blank`)
instead of the viewer or chatbot — it does not transition to `Home`. -/
theorem C6_dangling_renders_blank :
    (∀ (s : AppState) (id : String),
        (deleteDocument id s).currentScreen = s.currentScreen ∧
        (deleteDocument id s).selectedDocumentId = s.selectedDocumentId ∧
        (deleteDocument id s).selectedChatbotId = s.selectedChatbotId) ∧
    (∀ t : AppState, t.currentScreen = Screen.viewer →
        selectedDocument t = none → render t = Rendered.blank) ∧
    (∀ t : AppState, t.currentScreen = Screen.chatbot →
        selectedChatbot t = none → render t = Rendered.blank) := by
  refine ⟨fun s id => ⟨rfl, rfl, rfl⟩, ?_, ?_⟩
  · intro t hscreen hsel
    simp [render, hscreen, hsel]
  · intro t hscreen hsel
    simp [render, hscreen, hsel]

/-- Witness for C6's amended theorem: the dangling viewer state obtained by
deleting the selected document renders blank. -/
theorem C6_witness :
    render (deleteDocument "a" viewerState) = Rendered.blank :=
  C6_dangling_renders_blank.2.1 (deleteDocument "a" viewerState)
    (by decide) (by decide)

/-- Shape of `interface ChatResponse` in the api module, restricted to the
fields the completion handler of `ChatbotInterface.handleSendMessage`
reads: `success`, `answer?`, `response?`, `error?`. -/
structure ChatResponse where
  success : Bool
  answer : Option String
  response : Option String
  error : Option String
deriving Repr, DecidableEq

/-- JavaScript truthiness of an optional string: `undefined` and the empty
string are falsy. -/
def truthyStr : Option String → Bool
  | none => false
  | some s => s != ""

/-- Mirrors the completion handler inside `handleSendMessage` of
`ChatbotInterface`: on `response.success && (response.answer ||
response.response)` it builds the assistant message with content
`response.answer || response.response || 'No response'`; otherwise it
builds the error-shaped assistant message
`` `Error: ${response.error || 'Failed to get response'}` ``. -/
def completionMessage (now : Nat) (resp : ChatResponse) : Message :=
  if resp.success && (truthyStr resp.answer || truthyStr resp.response) then
    { id := "msg-" ++ toString now ++ "-ai"
      role := Role.assistant
      content :=
        if truthyStr resp.answer then resp.answer.getD ""
        else if truthyStr resp.response then resp.response.getD ""
        else "No response" }
  else
    { id := "msg-error-" ++ toString now
      role := Role.assistant
      content := "Error: " ++
        (if truthyStr resp.error then resp.error.getD ""
         else "Failed to get response") }

/-- Appending a message to a chatbot id that no chatbot carries leaves the
whole state unchanged: the `map` in `addMessageToChatbot` matches
nothing. -/
theorem addMessageToChatbot_absent (chatbotId : String) (message : Message)
    (s : AppState) (h : ∀ bot ∈ s.chatbots, bot.id ≠ chatbotId) :
    addMessageToChatbot chatbotId message s = s := by
  have hmap : s.chatbots.map (fun bot =>
      if bot.id == chatbotId then
        { bot with messages := bot.messages ++ [message] }
      else bot) = s.chatbots := by
    conv_rhs => rw [← List.map_id s.chatbots]
    apply List.map_congr_left
    intro bot hbot
    have hne : (bot.id == chatbotId) = false :=
      beq_eq_false_iff_ne.mpr (h bot hbot)
    simp [hne]
  unfold addMessageToChatbot
  rw [hmap]

/-- C8: if every chatbot carrying the pending session id `cid` belongs to
document `did`, then after `deleteDocument did` (the cascade removes those
chatbots) the eventually arriving chat completion — success-shaped or
error-shaped — is discarded: `addMessageToChatbot` maps over no matching
session, creates or mutates no message, and the state is exactly the
post-delete state. -/
theorem C8_pending_completion_discarded :
    ∀ (s : AppState) (did cid : String) (now : Nat) (resp : ChatResponse),
      (∀ bot ∈ s.chatbots, bot.id = cid → bot.documentId = did) →
      addMessageToChatbot cid (completionMessage now resp)
          (deleteDocument did s) =
        deleteDocument did s := by
  intro s did cid now resp h
  apply addMessageToChatbot_absent
  intro bot hbot heq
  have hmem : bot ∈ s.chatbots ∧ bot.documentId ≠ did := by
    simpa [deleteDocument, List.mem_filter, bne_iff_ne] using hbot
  exact hmem.2 (h bot hmem.1 heq)

/-- Witness for C8: the session of `demoState`'s only chatbot is deleted
with its document `"a"`; a later success-shaped completion is a no-op. -/
theorem C8_witness :
    addMessageToChatbot "chatbot-1"
        (completionMessage 99
          { success := true, answer := some "See [page 5].",
            response := none, error := none })
        (deleteDocument "a" demoState) =
      deleteDocument "a" demoState :=
  C8_pending_completion_discarded demoState "a" "chatbot-1" 99
    { success := true, answer := some "See [page 5].",
      response := none, error := none }
    (by decide)

/-- The whitespace class removed by JavaScript `String.prototype.trim`,
restricted to the ASCII control characters and space that occur in typed
chat input. -/
def isJsWhitespace (c : Char) : Bool :=
  c == ' ' || c == '\t' || c == '\n' || c == '\r' || c == '\x0b' || c == '\x0c'

/-- Models `input.trim()`: strips the whitespace class from both ends. -/
def jsTrim (s : String) : String :=
  String.mk (((s.toList.dropWhile isJsWhitespace).reverse.dropWhile
    isJsWhitespace).reverse)

/-- Mirrors the user message built by `handleSendMessage`:
`` { id: `msg-${Date.now()}`, role: 'user', content: userInput } ``. -/
def userMessageFor (now : Nat) (text : String) : Message :=
  { id := "msg-" ++ toString now, role := Role.user, content := text }

/-- The observable outcome of the synchronous phase of
`handleSendMessage`: the App state after the user-message append, the
`input` and `isSending` cells, and the backend chat request issued (session
id and message text), if any. -/
structure SendOutcome where
  state : AppState
  input : String
  isSending : Bool
  request : Option (String × String)
deriving Repr, DecidableEq

/-- Mirrors the synchronous phase of `handleSendMessage` in
`ChatbotInterface`: the guard `if (!input.trim() || isSending) return;`
makes empty/whitespace-only input, or a send while one is in flight, a
complete no-op; otherwise the input is cleared, `isSending` is set, the
user message is appended via `onSendMessage`, and
`api.sendChatMessage(sessionId, userInput)` is issued, where `sessionId`
is `currentDocument?.id || chatbot.documentId`. -/
def handleSendMessage (chatbotId sessionId input : String)
    (isSending : Bool) (now : Nat) (s : AppState) : SendOutcome :=
  if (jsTrim input == "") || isSending then
    { state := s, input := input, isSending := isSending, request := none }
  else
    { state := addMessageToChatbot chatbotId (userMessageFor now input) s
      input := ""
      isSending := true
      request := some (sessionId, input) }

/-- C10: sending with empty or whitespace-only text, or while a previous
send is still in flight, is a complete no-op: no user message is appended,
no backend request is issued, and the App state, the input cell and the
in-flight flag are all unchanged. -/
theorem C10_blank_or_inflight_send_noop :
    ∀ (chatbotId sessionId input : String) (isSending : Bool) (now : Nat)
      (s : AppState),
      (jsTrim input = "" ∨ isSending = true) →
      handleSendMessage chatbotId sessionId input isSending now s =
        { state := s, input := input, isSending := isSending,
          request := none } := by
  intro chatbotId sessionId input isSending now s h
  rcases h with h | h
  · simp [handleSendMessage, h]
  · simp [handleSendMessage, h]

/-- Witness for C10: a whitespace-only input and an in-flight send, each at
a concrete state, both leave everything unchanged. -/
theorem C10_witness :
    handleSendMessage "chatbot-1" "a" "   " false 5 demoState =
      { state := demoState, input := "   ", isSending := false,
        request := none } ∧
    handleSendMessage "chatbot-1" "a" "hello" true 5 demoState =
      { state := demoState, input := "hello", isSending := true,
        request := none } :=
  ⟨C10_blank_or_inflight_send_noop "chatbot-1" "a" "   " false 5 demoState
      (Or.inl (by decide)),
   C10_blank_or_inflight_send_noop "chatbot-1" "a" "hello" true 5 demoState
      (Or.inr rfl)⟩

/-- The pagination/zoom state cells of `ChatbotInterface` /
`DocumentViewer`: `currentPage`, `zoom`, `totalPages`, initialised to
`useState(1)`, `useState(100)`, `useState(1)`. -/
structure ChatView where
  currentPage : Nat
  zoom : Nat
  totalPages : Nat
deriving Repr, DecidableEq

/-- The initial view state: `currentPage = 1`, `zoom = 100`,
`totalPages = 1`. -/
def initChatView : ChatView :=
  { currentPage := 1, zoom := 100, totalPages := 1 }

/-- Mirrors `handlePrevPage`: `if (currentPage > 1)
setCurrentPage(currentPage - 1)`. -/
def handlePrevPage (v : ChatView) : ChatView :=
  if v.currentPage > 1 then { v with currentPage := v.currentPage - 1 } else v

/-- Mirrors `handleNextPage`: `if (currentPage < totalPages)
setCurrentPage(currentPage + 1)`. -/
def handleNextPage (v : ChatView) : ChatView :=
  if v.currentPage < v.totalPages then
    { v with currentPage := v.currentPage + 1 }
  else v

/-- Mirrors `handleZoomIn`: `if (zoom < 150) setZoom(zoom + 10)`. -/
def handleZoomIn (v : ChatView) : ChatView :=
  if v.zoom < 150 then { v with zoom := v.zoom + 10 } else v

/-- Mirrors `handleZoomOut`: `if (zoom > 50) setZoom(zoom - 10)`. -/
def handleZoomOut (v : ChatView) : ChatView :=
  if v.zoom > 50 then { v with zoom := v.zoom - 10 } else v

/-- The four toolbar operations quantified over by the bounds property. -/
inductive ViewOp where
  | nextPage
  | prevPage
  | zoomIn
  | zoomOut
deriving Repr, DecidableEq

/-- Applies one toolbar operation. -/
def applyViewOp (v : ChatView) : ViewOp → ChatView
  | ViewOp.nextPage => handleNextPage v
  | ViewOp.prevPage => handlePrevPage v
  | ViewOp.zoomIn => handleZoomIn v
  | ViewOp.zoomOut => handleZoomOut v

/-- Applies a sequence of toolbar operations in order. -/
def runViewOps (ops : List ViewOp) (v : ChatView) : ChatView :=
  ops.foldl applyViewOp v

/-- The view-state invariant maintained by the toolbar handlers: page in
`[1, totalPages]`, zoom in `[50, 150]` and a multiple of ten (the zoom cell
starts at `100` and moves in steps of ten, so every state the component
reaches satisfies this). -/
def ViewInv (v : ChatView) : Prop :=
  1 ≤ v.currentPage ∧ v.currentPage ≤ v.totalPages ∧
    50 ≤ v.zoom ∧ v.zoom ≤ 150 ∧ v.zoom % 10 = 0

/-- One toolbar operation preserves the view-state invariant and never
touches `totalPages`. -/
theorem viewInv_applyViewOp (v : ChatView) (op : ViewOp) (h : ViewInv v) :
    ViewInv (applyViewOp v op) ∧ (applyViewOp v op).totalPages = v.totalPages := by
  obtain ⟨h1, h2, h3, h4, h5⟩ := h
  unfold ViewInv
  cases op <;>
    simp only [applyViewOp, handleNextPage, handlePrevPage, handleZoomIn,
      handleZoomOut] <;>
    split <;>
    refine ⟨⟨?_, ?_, ?_, ?_, ?_⟩, rfl⟩ <;>
    dsimp only <;>
    omega

/-- A sequence of toolbar operations preserves the view-state invariant and
holds `totalPages` fixed. -/
theorem viewInv_runViewOps (ops : List ViewOp) (v : ChatView) (h : ViewInv v) :
    ViewInv (runViewOps ops v) ∧ (runViewOps ops v).totalPages = v.totalPages := by
  induction ops generalizing v with
  | nil => exact ⟨h, rfl⟩
  | cons op rest ih =>
      have hstep := viewInv_applyViewOp v op h
      have hrest := ih (applyViewOp v op) hstep.1
      exact ⟨by simpa [runViewOps, List.foldl_cons] using hrest.1,
        by simpa [runViewOps, List.foldl_cons] using hrest.2.trans hstep.2⟩

/-- C4: from any view state the component can reach (page within bounds,
zoom within `[50, 150]` and stepped in tens from its initial `100`), every
sequence of `nextPage`/`prevPage`/`zoomIn`/`zoomOut` calls, in any order
and with any repetition, keeps `currentPage` within `[1, totalPages]` and
`zoom` within `[50, 150]`, silently clamping at the bounds, with
`totalPages` held fixed. -/
theorem C4_page_zoom_bounds :
    ∀ (v : ChatView) (ops : List ViewOp),
      1 ≤ v.currentPage → v.currentPage ≤ v.totalPages →
      50 ≤ v.zoom → v.zoom ≤ 150 → v.zoom % 10 = 0 →
      1 ≤ (runViewOps ops v).currentPage ∧
      (runViewOps ops v).currentPage ≤ (runViewOps ops v).totalPages ∧
      50 ≤ (runViewOps ops v).zoom ∧ (runViewOps ops v).zoom ≤ 150 ∧
      (runViewOps ops v).totalPages = v.totalPages := by
  intro v ops h1 h2 h3 h4 h5
  have h := viewInv_runViewOps ops v ⟨h1, h2, h3, h4, h5⟩
  exact ⟨h.1.1, h.1.2.1, h.1.2.2.1, h.1.2.2.2.1, h.2⟩

/-- Witness for C4: a concrete three-page view driven through a mixed
operation sequence that hits both the upper and lower bounds. -/
theorem C4_witness :
    1 ≤ (runViewOps
          [ViewOp.nextPage, ViewOp.nextPage, ViewOp.nextPage, ViewOp.zoomOut,
           ViewOp.zoomOut, ViewOp.zoomOut, ViewOp.zoomOut, ViewOp.zoomOut,
           ViewOp.zoomOut, ViewOp.prevPage, ViewOp.prevPage, ViewOp.prevPage,
           ViewOp.zoomIn]
          { currentPage := 1, zoom := 100, totalPages := 3 }).currentPage ∧
    (runViewOps
          [ViewOp.nextPage, ViewOp.nextPage, ViewOp.nextPage, ViewOp.zoomOut,
           ViewOp.zoomOut, ViewOp.zoomOut, ViewOp.zoomOut, ViewOp.zoomOut,
           ViewOp.zoomOut, ViewOp.prevPage, ViewOp.prevPage, ViewOp.prevPage,
           ViewOp.zoomIn]
          { currentPage := 1, zoom := 100, totalPages := 3 }).currentPage ≤
      (runViewOps
          [ViewOp.nextPage, ViewOp.nextPage, ViewOp.nextPage, ViewOp.zoomOut,
           ViewOp.zoomOut, ViewOp.zoomOut, ViewOp.zoomOut, ViewOp.zoomOut,
           ViewOp.zoomOut, ViewOp.prevPage, ViewOp.prevPage, ViewOp.prevPage,
           ViewOp.zoomIn]
          { currentPage := 1, zoom := 100, totalPages := 3 }).totalPages ∧
    50 ≤ (runViewOps
          [ViewOp.nextPage, ViewOp.nextPage, ViewOp.nextPage, ViewOp.zoomOut,
           ViewOp.zoomOut, ViewOp.zoomOut, ViewOp.zoomOut, ViewOp.zoomOut,
           ViewOp.zoomOut, ViewOp.prevPage, ViewOp.prevPage, ViewOp.prevPage,
           ViewOp.zoomIn]
          { currentPage := 1, zoom := 100, totalPages := 3 }).zoom ∧
    (runViewOps
          [ViewOp.nextPage, ViewOp.nextPage, ViewOp.nextPage, ViewOp.zoomOut,
           ViewOp.zoomOut, ViewOp.zoomOut, ViewOp.zoomOut, ViewOp.zoomOut,
           ViewOp.zoomOut, ViewOp.prevPage, ViewOp.prevPage, ViewOp.prevPage,
           ViewOp.zoomIn]
          { currentPage := 1, zoom := 100, totalPages := 3 }).zoom ≤ 150 ∧
    (runViewOps
          [ViewOp.nextPage, ViewOp.nextPage, ViewOp.nextPage, ViewOp.zoomOut,
           ViewOp.zoomOut, ViewOp.zoomOut, ViewOp.zoomOut, ViewOp.zoomOut,
           ViewOp.zoomOut, ViewOp.prevPage, ViewOp.prevPage, ViewOp.prevPage,
           ViewOp.zoomIn]
          { currentPage := 1, zoom := 100, totalPages := 3 }).totalPages =
      ({ currentPage := 1, zoom := 100, totalPages := 3 } : ChatView).totalPages :=
  C4_page_zoom_bounds
    { currentPage := 1, zoom := 100, totalPages := 3 }
    [ViewOp.nextPage, ViewOp.nextPage, ViewOp.nextPage, ViewOp.zoomOut,
     ViewOp.zoomOut, ViewOp.zoomOut, ViewOp.zoomOut, ViewOp.zoomOut,
     ViewOp.zoomOut, ViewOp.prevPage, ViewOp.prevPage, ViewOp.prevPage,
     ViewOp.zoomIn]
    (by decide) (by decide) (by decide) (by decide) (by decide)

/-- Outcome of the asynchronous `loadDocInfo` effect: the document-info
response arrived with `success` (carrying `total_pages`, possibly absent or
zero), arrived with `success: false`, or the call threw and the
`content.match(/(\d+)\s+pages?/i)` fallback produced `contentPages`. -/
inductive DocInfoOutcome where
  | success (totalPages : Option Nat)
  | failure
  | thrown (contentPages : Option Nat)
deriving Repr, DecidableEq

/-- Mirrors the completion of the `loadDocInfo` effect: on success it runs
`setTotalPages(info.total_pages || 1)` (zero or absent falls back to 1); a
non-success response changes nothing; on a thrown error the content-regex
fallback runs `setTotalPages(parseInt(match[1], 10))` when it matched.
`currentPage` and `zoom` are not touched on any path. -/
def applyDocInfo (outcome : DocInfoOutcome) (v : ChatView) : ChatView :=
  match outcome with
  | DocInfoOutcome.success totalPages =>
      { v with totalPages :=
          match totalPages with
          | none => 1
          | some 0 => 1
          | some n => n }
  | DocInfoOutcome.failure => v
  | DocInfoOutcome.thrown none => v
  | DocInfoOutcome.thrown (some n) => { v with totalPages := n }

/-- A reachable view state: the first document-info response reports 12
pages, then the user pages forward four times to page 5. -/
def pageFiveView : ChatView :=
  runViewOps [ViewOp.nextPage, ViewOp.nextPage, ViewOp.nextPage,
    ViewOp.nextPage]
    (applyDocInfo (DocInfoOutcome.success (some 12)) initChatView)

/-- C5 counterexample: from the fresh view state, a first authoritative
count of 12 followed by four `nextPage` calls reaches page 5; a later
authoritative count of 3 updates `totalPages` but leaves `currentPage` at
5, so the invariant `currentPage ≤ pageCount` fails after the update — no
re-clamping happens. -/
theorem C5_counterexample :
    pageFiveView.currentPage = 5 ∧
    (applyDocInfo (DocInfoOutcome.success (some 3)) pageFiveView).currentPage
      = 5 ∧
    (applyDocInfo (DocInfoOutcome.success (some 3)) pageFiveView).totalPages
      = 3 ∧
    ¬ (applyDocInfo (DocInfoOutcome.success (some 3)) pageFiveView).currentPage
        ≤ (applyDocInfo (DocInfoOutcome.success (some 3))
            pageFiveView).totalPages := by
  decide

/-- C5 amended: a `pageCount` update (any outcome of the `loadDocInfo`
effect) leaves `currentPage` and `zoom` unchanged — no re-clamping into
`[1, pageCount]` is performed, so the view-state invariant survives a
`pageCount` update only when the new count is at least the current page. -/
theorem C5_no_reclamp_on_pageCount_update :
    ∀ (outcome : DocInfoOutcome) (v : ChatView),
      (applyDocInfo outcome v).currentPage = v.currentPage ∧
      (applyDocInfo outcome v).zoom = v.zoom ∧
      (1 ≤ v.currentPage →
        v.currentPage ≤ (applyDocInfo outcome v).totalPages →
        1 ≤ (applyDocInfo outcome v).currentPage ∧
        (applyDocInfo outcome v).currentPage
          ≤ (applyDocInfo outcome v).totalPages) := by
  intro outcome v
  have hpage : (applyDocInfo outcome v).currentPage = v.currentPage := by
    cases outcome with
    | success totalPages =>
        cases totalPages with
        | none => rfl
        | some n => cases n <;> rfl
    | failure => rfl
    | thrown contentPages => cases contentPages <;> rfl
  have hzoom : (applyDocInfo outcome v).zoom = v.zoom := by
    cases outcome with
    | success totalPages =>
        cases totalPages with
        | none => rfl
        | some n => cases n <;> rfl
    | failure => rfl
    | thrown contentPages => cases contentPages <;> rfl
  refine ⟨hpage, hzoom, ?_⟩
  intro h1 h2
  constructor
  · rw [hpage]
    exact h1
  · rw [hpage]
    exact h2

/-- Witness for C5's amended theorem: the invariant-survival clause
instantiated at the fresh view state and a count of 7. -/
theorem C5_witness :
    (applyDocInfo (DocInfoOutcome.success (some 7)) initChatView).currentPage
      = initChatView.currentPage ∧
    1 ≤ (applyDocInfo (DocInfoOutcome.success (some 7))
          initChatView).currentPage ∧
    (applyDocInfo (DocInfoOutcome.success (some 7)) initChatView).currentPage
      ≤ (applyDocInfo (DocInfoOutcome.success (some 7))
          initChatView).totalPages :=
  ⟨(C5_no_reclamp_on_pageCount_update (DocInfoOutcome.success (some 7))
      initChatView).1,
   ((C5_no_reclamp_on_pageCount_update (DocInfoOutcome.success (some 7))
      initChatView).2.2 (by decide) (by decide)).1,
   ((C5_no_reclamp_on_pageCount_update (DocInfoOutcome.success (some 7))
      initChatView).2.2 (by decide) (by decide)).2⟩

/-- A segment produced by the citation renderer of `ChatbotInterface`:
either plain text or a page-citation token carrying its original literal
(for example `[page 5]`) and the parsed page number. -/
inductive Seg where
  | text (chars : List Char)
  | token (lit : List Char) (page : Nat)
deriving Repr, DecidableEq

/-- Mirrors `parseInt(match[1], 10)` on a digit string. -/
def digitsToNat (ds : List Char) : Nat :=
  ds.foldl (fun n c => n * 10 + (c.toNat - '0'.toNat)) 0

/-- Attempts to match the citation regex `\[page \d+\]` (case-insensitive
on the letters, exactly one space, one or more ASCII digits) at the head of
the character list.  On success returns the matched literal, the parsed
page number, and the remaining input. -/
def matchTokenAt (l : List Char) : Option (List Char × Nat × List Char) :=
  match l with
  | '[' :: p :: a :: g :: e :: ' ' :: rest =>
      if p.toLower == 'p' && a.toLower == 'a' && g.toLower == 'g' &&
          e.toLower == 'e' then
        if (rest.takeWhile Char.isDigit).isEmpty then none
        else
          match rest.dropWhile Char.isDigit with
          | ']' :: r2 =>
              some ('[' :: p :: a :: g :: e :: ' ' ::
                      (rest.takeWhile Char.isDigit ++ [']']),
                digitsToNat (rest.takeWhile Char.isDigit), r2)
          | _ => none
      else none
  | _ => none

/-- Emits a pending run of plain characters as a text segment, dropping
empty runs (the empty strings JavaScript `split` inserts around adjacent
tokens render as empty spans). -/
def emitText (acc : List Char) : List Seg :=
  if acc = [] then [] else [Seg.text acc]

/-- Fuel-driven left-to-right scan: at each position, either the citation
regex matches (the token is emitted) or one plain character is consumed,
exactly as `content.split(/(\[page \d+\])/gi)` partitions the string.  One
unit of fuel is spent per position, so fuel equal to the input length
always suffices; on exhaustion the remainder is emitted as text. -/
def scanPartsAux : Nat → List Char → List Char → List Seg
  | 0, acc, rest => emitText (acc ++ rest)
  | _ + 1, acc, [] => emitText acc
  | fuel + 1, acc, c :: cs =>
      match matchTokenAt (c :: cs) with
      | some (lit, n, rest) =>
          emitText acc ++ (Seg.token lit n :: scanPartsAux fuel [] rest)
      | none => scanPartsAux fuel (acc ++ [c]) cs

/-- Mirrors the citation renderer: splits the assistant text into plain
segments and `[page N]` tokens. -/
def scanParts (s : String) : List Seg :=
  scanPartsAux s.toList.length [] s.toList

/-- Concatenation of the segments, each token contributing its original
literal. -/
def segsJoin : List Seg → List Char
  | [] => []
  | Seg.text cs :: rest => cs ++ segsJoin rest
  | Seg.token lit _ :: rest => lit ++ segsJoin rest

/-- The grammar of a recognized citation token: an opening bracket, the
word `page` up to letter case, one space, a nonempty digit string, and a
closing bracket; the page number is the digit string parsed in base ten. -/
def TokenShape (lit : List Char) (n : Nat) : Prop :=
  ∃ p a g e ds, lit = '[' :: p :: a :: g :: e :: ' ' :: (ds ++ [']']) ∧
    p.toLower = 'p' ∧ a.toLower = 'a' ∧ g.toLower = 'g' ∧ e.toLower = 'e' ∧
    ds ≠ [] ∧ (∀ c ∈ ds, c.isDigit = true) ∧ n = digitsToNat ds

/-- Joining distributes over segment-list concatenation. -/
theorem segsJoin_append (xs ys : List Seg) :
    segsJoin (xs ++ ys) = segsJoin xs ++ segsJoin ys := by
  induction xs with
  | nil => simp [segsJoin]
  | cons x rest ih =>
      cases x <;> simp [segsJoin, ih]

/-- Joining the emitted text run gives back the run. -/
theorem segsJoin_emitText (acc : List Char) :
    segsJoin (emitText acc) = acc := by
  by_cases h : acc = [] <;> simp [emitText, h, segsJoin]

/-- Membership in an emitted text run forces a text segment with exactly
that run. -/
theorem mem_emitText (seg : Seg) (acc : List Char) (h : seg ∈ emitText acc) :
    seg = Seg.text acc := by
  by_cases hacc : acc = [] <;> simp [emitText, hacc] at h
  exact h

/-- A successful citation match splits the input into the literal and the
remainder, and the literal has the citation grammar shape. -/
theorem matchTokenAt_eq (l lit : List Char) (n : Nat) (rest : List Char)
    (h : matchTokenAt l = some (lit, n, rest)) :
    l = lit ++ rest ∧ TokenShape lit n := by
  unfold matchTokenAt at h
  split at h
  case _ p a g e rest0 =>
    split at h
    case isTrue hcase =>
      split at h
      case isTrue => exact absurd h (by simp)
      case isFalse hne =>
        split at h
        case _ r2 hdrop =>
          injection h with h1
          simp only [Prod.mk.injEq] at h1
          obtain ⟨h1, h2, h3⟩ := h1
          subst h1
          subst h2
          subst h3
          have hsplit : rest0.takeWhile Char.isDigit ++
              rest0.dropWhile Char.isDigit = rest0 :=
            List.takeWhile_append_dropWhile Char.isDigit rest0
          simp only [Bool.and_eq_true, beq_iff_eq] at hcase
          constructor
          · simp only [List.cons_append, List.append_assoc, List.cons_append,
              List.nil_append]
            rw [← hdrop, hsplit]
          · refine ⟨p, a, g, e, rest0.takeWhile Char.isDigit, rfl,
              hcase.1.1.1, hcase.1.1.2, hcase.1.2, hcase.2, ?_, ?_, rfl⟩
            · intro hempty
              rw [hempty] at hne
              exact hne rfl
            · intro c hc
              exact List.mem_takeWhile_imp hc
        case _ hshape hdrop => exact absurd h (by simp)
    case isFalse => exact absurd h (by simp)
  case _ => exact absurd h (by simp)

/-- Losslessness of the scan: joining all produced segments restores the
pending run followed by the remaining input, for every fuel. -/
theorem scanPartsAux_join (fuel : Nat) (acc l : List Char) :
    segsJoin (scanPartsAux fuel acc l) = acc ++ l := by
  induction fuel generalizing acc l with
  | zero => simp [scanPartsAux, segsJoin_emitText]
  | succ fuel ih =>
      cases l with
      | nil => simp [scanPartsAux, segsJoin_emitText]
      | cons c cs =>
          cases hmt : matchTokenAt (c :: cs) with
          | none =>
              simp only [scanPartsAux, hmt]
              rw [ih (acc ++ [c]) cs]
              simp
          | some triple =>
              obtain ⟨lit, n, rest⟩ := triple
              have hdecomp := (matchTokenAt_eq (c :: cs) lit n rest hmt).1
              simp only [scanPartsAux, hmt]
              rw [segsJoin_append, segsJoin_emitText]
              simp only [segsJoin]
              rw [ih [] rest]
              simp [← hdecomp]

/-- Soundness of the scan: every produced segment is either plain text or
a token whose literal has the citation grammar shape with its parsed
number. -/
theorem scanPartsAux_sound (fuel : Nat) (acc l : List Char) :
    ∀ seg ∈ scanPartsAux fuel acc l,
      (∃ cs, seg = Seg.text cs) ∨
      (∃ lit n, seg = Seg.token lit n ∧ TokenShape lit n) := by
  induction fuel generalizing acc l with
  | zero =>
      intro seg hseg
      exact Or.inl ⟨acc ++ l, mem_emitText seg (acc ++ l) hseg⟩
  | succ fuel ih =>
      cases l with
      | nil =>
          intro seg hseg
          exact Or.inl ⟨acc, mem_emitText seg acc hseg⟩
      | cons c cs =>
          cases hmt : matchTokenAt (c :: cs) with
          | none =>
              intro seg hseg
              simp only [scanPartsAux, hmt] at hseg
              exact ih (acc ++ [c]) cs seg hseg
          | some triple =>
              obtain ⟨lit, n, rest⟩ := triple
              intro seg hseg
              simp only [scanPartsAux, hmt, List.mem_append,
                List.mem_cons] at hseg
              rcases hseg with hseg | hseg | hseg
              · exact Or.inl ⟨acc, mem_emitText seg acc hseg⟩
              · exact Or.inr ⟨lit, n, hseg,
                  (matchTokenAt_eq (c :: cs) lit n rest hmt).2⟩
              · exact ih [] rest seg hseg

/-- Completeness direction: if the citation regex matches at no position
of the input (for example every bracket pair holds a malformed number),
the scan produces plain text segments only. -/
theorem scanPartsAux_noToken (fuel : Nat) (acc l : List Char)
    (h : ∀ i, i ≤ l.length → matchTokenAt (l.drop i) = none) :
    ∀ seg ∈ scanPartsAux fuel acc l, ∃ cs, seg = Seg.text cs := by
  induction fuel generalizing acc l with
  | zero =>
      intro seg hseg
      exact ⟨acc ++ l, mem_emitText seg (acc ++ l) hseg⟩
  | succ fuel ih =>
      cases l with
      | nil =>
          intro seg hseg
          exact ⟨acc, mem_emitText seg acc hseg⟩
      | cons c cs =>
          have h0 : matchTokenAt (c :: cs) = none := by
            simpa using h 0 (Nat.zero_le _)
          intro seg hseg
          simp only [scanPartsAux, h0] at hseg
          refine ih (acc ++ [c]) cs ?_ seg hseg
          intro i hi
          simpa using h (i + 1) (by simpa using Nat.succ_le_succ hi)

/-- C3 counterexample: `[page 0]` is recognized as a citation token with
page number 0 — the digits need not parse as a positive integer,
contradicting the claim that such bracket content is treated as plain
text. -/
theorem C3_counterexample :
    scanParts "[page 0]" =
      [Seg.token ("[page 0]".toList) 0] ∧ ¬ 0 < (0 : Nat) := by
  constructor
  · rfl
  · decide

/-- C3 amended: citation parsing is a lossless partition — concatenating
all returned segments (tokens contributing their original literals)
reproduces the input exactly, for every input; every recognized token is a
bracketed case-insensitive `[page <digits>]` with a nonempty digit string
parsed in base ten as a nonnegative integer (zero included, so the number
need not be positive); and on input where the pattern matches nowhere
(malformed bracket content) the output is plain text only. -/
theorem C3_citation_partition :
    (∀ s : String, segsJoin (scanParts s) = s.toList) ∧
    (∀ (s : String) (lit : List Char) (n : Nat),
        Seg.token lit n ∈ scanParts s → TokenShape lit n) ∧
    (∀ s : String,
        (∀ i, i ≤ s.toList.length → matchTokenAt (s.toList.drop i) = none) →
        ∀ seg ∈ scanParts s, ∃ cs, seg = Seg.text cs) := by
  refine ⟨?_, ?_, ?_⟩
  · intro s
    simpa using scanPartsAux_join s.toList.length [] s.toList
  · intro s lit n hmem
    rcases scanPartsAux_sound s.toList.length [] s.toList _ hmem with
      ⟨cs, hcs⟩ | ⟨lit2, n2, heq, hshape⟩
    · exact absurd hcs (by simp)
    · obtain ⟨h1, h2⟩ : lit = lit2 ∧ n = n2 := by
        injection heq with h1 h2
        exact ⟨h1, h2⟩
      rw [h1, h2]
      exact hshape
  · intro s h seg hseg
    exact scanPartsAux_noToken s.toList.length [] s.toList h seg hseg

/-- Witness for C3: the mixed input `See [page 5] and [page 99].` is
joined back losslessly, its token `[page 5]` has the citation grammar
shape, and the malformed input `[page x]` yields text segments only. -/
theorem C3_witness :
    segsJoin (scanParts "See [page 5] and [page 99].") =
      "See [page 5] and [page 99].".toList ∧
    TokenShape ("[page 5]".toList) 5 ∧
    (∀ seg ∈ scanParts "[page x]", ∃ cs, seg = Seg.text cs) :=
  ⟨C3_citation_partition.1 "See [page 5] and [page 99].",
   C3_citation_partition.2.1 "See [page 5] and [page 99]."
     ("[page 5]".toList) 5 (by decide),
   C3_citation_partition.2.2 "[page x]" (by decide)⟩

/-- JSON values, as produced by `JSON.parse`.  Numbers keep their validated
lexeme as text (the decode-failure behaviour under study does not depend on
numeric value). -/
inductive Json where
  | null
  | bool (b : Bool)
  | num (lexeme : List Char)
  | str (chars : List Char)
  | arr (items : List Json)
  | obj (fields : List (List Char × Json))

/-- The opening curly bracket character. -/
def lbraceChar : Char := Char.ofNat 123

/-- The closing curly bracket character. -/
def rbraceChar : Char := Char.ofNat 125

/-- JSON insignificant whitespace. -/
def jsonWs (c : Char) : Bool :=
  c == ' ' || c == '\t' || c == '\n' || c == '\r'

/-- Drops leading JSON whitespace. -/
def skipWs (l : List Char) : List Char :=
  l.dropWhile jsonWs

/-- Parses the body of a JSON string after the opening quote, up to the
closing quote; an escape keeps the escaped character (the exact unescaping
does not matter for decode success). -/
def parseStringBody : List Char → Option (List Char × List Char)
  | [] => none
  | '\"' :: rest => some ([], rest)
  | '\\' :: c :: rest =>
      match parseStringBody rest with
      | some (s, r) => some (c :: s, r)
      | none => none
  | c :: rest =>
      match parseStringBody rest with
      | some (s, r) => some (c :: s, r)
      | none => none

/-- Parses an optional exponent part of a JSON number; `acc` is the lexeme
so far. -/
def parseExpPart (acc : List Char) (l : List Char) :
    Option (List Char × List Char) :=
  match l with
  | [] => some (acc, [])
  | c :: r =>
      if c == 'e' || c == 'E' then
        let sgnAndRest : List Char × List Char :=
          match r with
          | '+' :: r2 => (['+'], r2)
          | '-' :: r2 => (['-'], r2)
          | _ => ([], r)
        let es := sgnAndRest.2.takeWhile Char.isDigit
        if es.isEmpty then none
        else some (acc ++ c :: sgnAndRest.1 ++ es,
          sgnAndRest.2.dropWhile Char.isDigit)
      else some (acc, l)

/-- Parses a JSON number lexeme: optional minus, digits, optional
fraction, optional exponent. -/
def parseNumber (l : List Char) : Option (List Char × List Char) :=
  let negAndRest : List Char × List Char :=
    match l with
    | '-' :: r => (['-'], r)
    | _ => ([], l)
  let ds := negAndRest.2.takeWhile Char.isDigit
  if ds.isEmpty then none
  else
    match negAndRest.2.dropWhile Char.isDigit with
    | '.' :: r2 =>
        let fs := r2.takeWhile Char.isDigit
        if fs.isEmpty then none
        else parseExpPart (negAndRest.1 ++ ds ++ '.' :: fs)
            (r2.dropWhile Char.isDigit)
    | r1 => parseExpPart (negAndRest.1 ++ ds) r1

mutual

/-- Fuel-driven JSON value parser modelling `JSON.parse`: `none` is a parse
failure (the `JSON.parse` call throws). -/
def parseVal : Nat → List Char → Option (Json × List Char)
  | 0, _ => none
  | fuel + 1, l =>
      match skipWs l with
      | 'n' :: 'u' :: 'l' :: 'l' :: r => some (Json.null, r)
      | 't' :: 'r' :: 'u' :: 'e' :: r => some (Json.bool true, r)
      | 'f' :: 'a' :: 'l' :: 's' :: 'e' :: r => some (Json.bool false, r)
      | '\"' :: r =>
          match parseStringBody r with
          | some (s, r2) => some (Json.str s, r2)
          | none => none
      | '[' :: r =>
          match skipWs r with
          | ']' :: r2 => some (Json.arr [], r2)
          | _ =>
              match parseArrItems fuel r with
              | some (vs, r2) => some (Json.arr vs, r2)
              | none => none
      | c :: r =>
          if c == lbraceChar then
            match skipWs r with
            | c2 :: r2 =>
                if c2 == rbraceChar then some (Json.obj [], r2)
                else
                  match parseObjItems fuel r with
                  | some (fs, r3) => some (Json.obj fs, r3)
                  | none => none
            | [] => none
          else if c == '-' || c.isDigit then
            match parseNumber (c :: r) with
            | some (lex, rest) => some (Json.num lex, rest)
            | none => none
          else none
      | [] => none

/-- Parses one or more comma-separated array items followed by the closing
bracket. -/
def parseArrItems : Nat → List Char → Option (List Json × List Char)
  | 0, _ => none
  | fuel + 1, l =>
      match parseVal fuel l with
      | none => none
      | some (v, r) =>
          match skipWs r with
          | ',' :: r2 =>
              match parseArrItems fuel r2 with
              | some (vs, r3) => some (v :: vs, r3)
              | none => none
          | ']' :: r2 => some ([v], r2)
          | _ => none

/-- Parses one or more comma-separated `"key": value` fields followed by
the closing curly bracket. -/
def parseObjItems : Nat → List Char →
    Option (List (List Char × Json) × List Char)
  | 0, _ => none
  | fuel + 1, l =>
      match skipWs l with
      | '\"' :: r =>
          match parseStringBody r with
          | none => none
          | some (k, r2) =>
              match skipWs r2 with
              | ':' :: r3 =>
                  match parseVal fuel r3 with
                  | none => none
                  | some (v, r4) =>
                      match skipWs r4 with
                      | ',' :: r5 =>
                          match parseObjItems fuel r5 with
                          | some (fs, r6) => some ((k, v) :: fs, r6)
                          | none => none
                      | c :: r5 =>
                          if c == rbraceChar then some ([(k, v)], r5)
                          else none
                      | [] => none
              | _ => none
      | _ => none

end

/-- Models `JSON.parse`: parses a full JSON document (value plus trailing
whitespace); `none` means the call throws.  The fuel `2 * length + 4`
always suffices, since along every call chain at most two nested calls
happen per consumed input character. -/
def jsonParse (s : String) : Option Json :=
  match parseVal (2 * s.toList.length + 4) s.toList with
  | some (v, rest) => if (skipWs rest).isEmpty then some v else none
  | none => none

/-- Mirrors the `documents`/`chatbots` `useState` initializers of
`AppContent`: `const saved = localStorage.getItem(key); return saved ?
JSON.parse(saved) : [];`.  An absent key yields the empty array; a stored
value is handed to `JSON.parse`, whose result is accepted unchecked (cast
to the entity array type with no shape validation) and whose exception, on
undecodable input, propagates out of the initializer (`Except.error`). -/
def loadStoredJson (stored : Option String) : Except Unit Json :=
  match stored with
  | none => Except.ok (Json.arr [])
  | some s =>
      match jsonParse s with
      | some v => Except.ok v
      | none => Except.error ()

/-- Mirrors the `currentScreen` initializer: `const saved =
localStorage.getItem('currentScreen'); return (saved as Screen) ||
'home';` — any nonempty stored string is accepted as the screen with no
validation. -/
def loadScreen (stored : Option String) : String :=
  match stored with
  | none => "home"
  | some s => if s = "" then "home" else s

/-- Mirrors the `selectedDocumentId`/`selectedChatbotId` initializers:
`return localStorage.getItem(key) || null;`. -/
def loadSelectedId (stored : Option String) : Option String :=
  match stored with
  | none => none
  | some s => if s = "" then none else some s

/-- The four screen names of `type Screen`. -/
def screenNames : List String :=
  ["home", "library", "viewer", "chatbot"]

/-- C7 counterexample: a corrupt stored snapshot does not fall back to the
baseline.  The stored documents value consisting of a lone opening curly
bracket fails to decode and the error propagates out of `load`
(`Except.error`, startup crashes); and a wrong-shaped stored screen value
`banana` is accepted verbatim rather than replaced by the Home screen. -/
theorem C7_counterexample :
    loadStoredJson (some "\x7b") = Except.error () ∧
    loadScreen (some "banana") = "banana" ∧
    "banana" ∉ screenNames := by
  refine ⟨rfl, rfl, ?_⟩
  decide

/-- C7 amended: `load()` returns the empty baseline (empty entity lists,
Home screen, no selections) only when the stored keys are absent; a stored
entity-list value that fails to decode as JSON makes the error propagate
(startup fails rather than starting cold), a value that decodes is
accepted without any shape validation, and any nonempty stored screen
string is accepted as-is. -/
theorem C7_load_behavior :
    loadStoredJson none = Except.ok (Json.arr []) ∧
    loadScreen none = "home" ∧
    loadSelectedId none = none ∧
    (∀ s : String, jsonParse s = none →
        loadStoredJson (some s) = Except.error ()) ∧
    (∀ (s : String) (v : Json), jsonParse s = some v →
        loadStoredJson (some s) = Except.ok v) ∧
    (∀ s : String, s ≠ "" → loadScreen (some s) = s) := by
  refine ⟨rfl, rfl, rfl, ?_, ?_, ?_⟩
  · intro s h
    simp [loadStoredJson, h]
  · intro s v h
    simp [loadStoredJson, h]
  · intro s h
    simp [loadScreen, h]

/-- Witness for C7's amended theorem: the empty JSON object decodes and is
accepted; the non-JSON text `not json` fails and the failure propagates;
the nonempty screen string `library` is kept. -/
theorem C7_witness :
    loadStoredJson (some "\x7b\x7d") = Except.ok (Json.obj []) ∧
    loadStoredJson (some "not json") = Except.error () ∧
    loadScreen (some "library") = "library" :=
  ⟨C7_load_behavior.2.2.2.2.1 "\x7b\x7d" (Json.obj []) rfl,
   C7_load_behavior.2.2.2.1 "not json" rfl,
   C7_load_behavior.2.2.2.2.2 "library" (by decide)⟩

end ChatbotSystem
